import Mathlib

/-!
Shallow embedding of the uptime-reconstruction engine of the status-page
service (backend/app/api/v1/endpoints/metrics.py and status.py).

Time instants are rationals measured in seconds (Python datetimes have
microsecond resolution, so every instant and every `total_seconds()` value
is a rational number).  Database query results (ordered status-history
slices) are passed in as explicit lists, and each call site's internal
`datetime.utcnow()` / `datetime.now(timezone.utc)` read is passed in as an
explicit `now : ℚ` parameter.  Percentages are rationals.
-/

/-- `ServiceStatus` enum from backend/app/models/service.py. -/
inductive ServiceStatus where
  | OPERATIONAL
  | DEGRADED_PERFORMANCE
  | PARTIAL_OUTAGE
  | MAJOR_OUTAGE
  | MAINTENANCE
deriving DecidableEq, Repr

/-- The fields of a `Service` row that the uptime engine reads
(backend/app/models/service.py): current status, the instant of the last
status change, the active flag, plus id and name used in responses. -/
structure Service where
  id : Nat
  name : String
  status : ServiceStatus
  last_status_change : ℚ
  is_active : Bool
deriving DecidableEq, Repr

/-- A `ServiceStatusHistory` row as the engine reads it: the instant the
change was recorded and the status changed *to*.  (`previous_status`,
`reason` and `is_automated` are never read by the uptime computations.) -/
structure StatusHistoryEntry where
  created_at : ℚ
  status : ServiceStatus
deriving DecidableEq, Repr

/-- One iteration of the status-walk loop shared by
`calculate_service_uptime_for_period` (metrics.py lines 122-128) and
`calculate_uptime_percentage` (status.py lines 113-121): state is
`(operational_duration, current_status, last_change)`. -/
def statusStep (st : ℚ × ServiceStatus × ℚ) (entry : StatusHistoryEntry) :
    ℚ × ServiceStatus × ℚ :=
  let op := if st.2.1 = ServiceStatus.OPERATIONAL
    then st.1 + (entry.created_at - st.2.2) else st.1
  (op, entry.status, entry.created_at)

/-- metrics.py `calculate_service_uptime_for_period` (lines 57-134).
`history` is the db query result: the service's status-history rows with
`start_time <= created_at <= end_time`, ordered by `created_at`. -/
def calculate_service_uptime_for_period (service : Service)
    (history : List StatusHistoryEntry) (start_time end_time : ℚ) : ℚ :=
  if service.is_active = false then 100
  else
    let total_duration := end_time - start_time
    if total_duration ≤ 0 then 100
    else if history = [] then
      let operational_duration : ℚ :=
        if service.last_status_change ≤ start_time then
          if service.status = ServiceStatus.OPERATIONAL then total_duration else 0
        else if service.last_status_change ≤ end_time then
          let time_before_change := service.last_status_change - start_time
          let time_after_change := end_time - service.last_status_change
          max 0 time_before_change +
            (if service.status = ServiceStatus.OPERATIONAL
              then max 0 time_after_change else 0)
        else total_duration
      min ((operational_duration / total_duration) * 100) 100
    else
      let init : ServiceStatus :=
        if service.last_status_change ≤ start_time then service.status
        else ServiceStatus.OPERATIONAL
      let st := history.foldl statusStep ((0 : ℚ), init, start_time)
      let operational_duration :=
        if st.2.1 = ServiceStatus.OPERATIONAL then st.1 + (end_time - st.2.2)
        else st.1
      min ((operational_duration / total_duration) * 100) 100

/-- status.py `calculate_overall_status` (lines 47-74): worst-of rollup
over the active services, returned as the status-page label string. -/
def calculate_overall_status (services : List Service) : String :=
  if services = [] then "operational"
  else
    let statuses := (services.filter (fun s => s.is_active)).map (fun s => s.status)
    if statuses = [] then "operational"
    else if ServiceStatus.MAJOR_OUTAGE ∈ statuses then "major_outage"
    else if ServiceStatus.PARTIAL_OUTAGE ∈ statuses then "partial_outage"
    else if ServiceStatus.DEGRADED_PERFORMANCE ∈ statuses then "degraded_performance"
    else if ServiceStatus.MAINTENANCE ∈ statuses then "maintenance"
    else "operational"

/-- Python's `round(x)` on an exact value: round-half-to-even to an
integer. -/
def halfEvenRound (q : ℚ) : ℤ :=
  if q - (⌊q⌋ : ℚ) < 1/2 then ⌊q⌋
  else if 1/2 < q - (⌊q⌋ : ℚ) then ⌊q⌋ + 1
  else if ⌊q⌋ % 2 = 0 then ⌊q⌋ else ⌊q⌋ + 1

/-- Python's `round(x, 2)`: round to 2 decimal places, half to even. -/
def pythonRound2 (q : ℚ) : ℚ :=
  (halfEvenRound (q * 100) : ℚ) / 100

/-- The body of the per-service loop of status.py
`calculate_uptime_percentage` (lines 91-128), for one active service.
`now` is the value of the `datetime.utcnow()` reads; `log` is the
service's full status history ordered by `created_at`, of which the code
queries the slice with `created_at >= cutoff_date`.  With no history the
service contributes `100.0`; otherwise the walk starts from status
Operational at `cutoff_date`, the final interval runs to `now`, the
denominator is `days * 24 * 60 * 60` seconds, and the quotient is clamped
by `min(service_uptime, 100.0)`. -/
def statusPageServiceContribution (now : ℚ) (days : ℕ) (_svc : Service)
    (log : List StatusHistoryEntry) : ℚ :=
  let cutoff_date := now - (days : ℚ) * 86400
  let history := log.filter (fun ev => cutoff_date ≤ ev.created_at)
  if history = [] then 100
  else
    let total_time : ℚ := (days : ℚ) * 24 * 60 * 60
    let st := history.foldl statusStep ((0 : ℚ), ServiceStatus.OPERATIONAL, cutoff_date)
    let operational_time :=
      if st.2.1 = ServiceStatus.OPERATIONAL then st.1 + (now - st.2.2) else st.1
    min ((operational_time / total_time) * 100) 100

/-- status.py `calculate_uptime_percentage` (lines 76-130).  Each element
of `services` pairs a `Service` row with its full ordered status history
(the db slice the loop queries per service).  `now` stands for the
`datetime.utcnow()` reads the function performs internally. -/
def calculate_uptime_percentage (services : List (Service × List StatusHistoryEntry))
    (now : ℚ) (days : ℕ) : ℚ :=
  if services = [] then 100
  else
    let service_count := (services.filter (fun p => p.1.is_active)).length
    if service_count = 0 then 100
    else
      let total_uptime := services.foldl
        (fun acc p =>
          if p.1.is_active = false then acc
          else acc + statusPageServiceContribution now days p.1 p.2) 0
      pythonRound2 (total_uptime / service_count)

/-- `datetime.replace(hour=0, minute=0, second=0, microsecond=0)` on a UTC
instant measured in seconds since a midnight epoch: floor to the start of
the calendar day. -/
def floorDay (t : ℚ) : ℚ := (⌊t / 86400⌋ : ℚ) * 86400

/-- `datetime.replace(minute=0, second=0, microsecond=0)`: floor to the
start of the clock hour. -/
def floorHour (t : ℚ) : ℚ := (⌊t / 3600⌋ : ℚ) * 3600

/-- The db query of `calculate_service_uptime_for_period` (metrics.py
lines 68-74): the rows with `start_time <= created_at <= end_time`, in
order. -/
def sliceEvents (log : List StatusHistoryEntry) (start_time end_time : ℚ) :
    List StatusHistoryEntry :=
  log.filter (fun ev => start_time ≤ ev.created_at ∧ ev.created_at ≤ end_time)

/-- metrics.py `UptimeDataPoint` (minus the presentation-only `label`
string, which no computation reads): the bucket's start instant and its
rounded uptime percentage. -/
structure UptimeDataPoint where
  timestamp : ℚ
  uptime_percentage : ℚ
deriving DecidableEq, Repr

/-- metrics.py `ServiceUptimeData`. -/
structure ServiceUptimeData where
  service_id : Nat
  service_name : String
  data_points : List UptimeDataPoint
  overall_uptime : ℚ
deriving DecidableEq, Repr

/-- metrics.py `UptimeMetricsResponse` (minus per-point labels). -/
structure UptimeMetricsResponse where
  services : List ServiceUptimeData
  overall_uptime : ℚ
  period_type : String
  period_label : String
deriving DecidableEq, Repr

/-- The unrounded uptime of daily bucket `i` (0-indexed from most recent)
for one service, metrics.py lines 173-177: `day_start` is
`(now - timedelta(days=i+1))` floored to midnight and `day_end` is one day
later; the Reconstructor runs on the history slice of that bucket. -/
def dailyBucketUptime (svc : Service) (log : List StatusHistoryEntry)
    (now : ℚ) (i : ℕ) : ℚ :=
  let day_start := floorDay (now - ((i : ℚ) + 1) * 86400)
  let day_end := day_start + 86400
  calculate_service_uptime_for_period svc (sliceEvents log day_start day_end)
    day_start day_end

/-- The `data_points` list built for one service in the daily branch of
`get_uptime_metrics` (metrics.py lines 169-187): one point per bucket
`i = 0..29`, percentage rounded to 2 decimals, then reversed so output is
chronological. -/
def dailyDataPoints (svc : Service) (log : List StatusHistoryEntry)
    (now : ℚ) : List UptimeDataPoint :=
  (((List.range 30).map (fun (i : ℕ) =>
    { timestamp := floorDay (now - ((i : ℚ) + 1) * 86400)
      uptime_percentage := pythonRound2 (dailyBucketUptime svc log now i) :
      UptimeDataPoint })).reverse)

/-- The per-service `overall_uptime` of the daily branch (metrics.py line
193): sum of the 30 unrounded bucket uptimes divided by 30, rounded. -/
def dailyOverall (svc : Service) (log : List StatusHistoryEntry) (now : ℚ) : ℚ :=
  pythonRound2 (((List.range 30).map (dailyBucketUptime svc log now)).sum / 30)

/-- The unrounded uptime of hourly bucket `i` (metrics.py lines 205-209). -/
def hourlyBucketUptime (svc : Service) (log : List StatusHistoryEntry)
    (now : ℚ) (i : ℕ) : ℚ :=
  let hour_start := floorHour (now - ((i : ℚ) + 1) * 3600)
  let hour_end := hour_start + 3600
  calculate_service_uptime_for_period svc (sliceEvents log hour_start hour_end)
    hour_start hour_end

/-- The `data_points` list built for one service in the hourly branch
(metrics.py lines 201-219). -/
def hourlyDataPoints (svc : Service) (log : List StatusHistoryEntry)
    (now : ℚ) : List UptimeDataPoint :=
  (((List.range 24).map (fun (i : ℕ) =>
    { timestamp := floorHour (now - ((i : ℚ) + 1) * 3600)
      uptime_percentage := pythonRound2 (hourlyBucketUptime svc log now i) :
      UptimeDataPoint })).reverse)

/-- The per-service `overall_uptime` of the hourly branch (line 225). -/
def hourlyOverall (svc : Service) (log : List StatusHistoryEntry) (now : ℚ) : ℚ :=
  pythonRound2 (((List.range 24).map (hourlyBucketUptime svc log now)).sum / 24)

/-- metrics.py `get_uptime_metrics` (lines 136-245) for one organization.
`allServices` pairs every service row of the organization with its full
ordered status history; the endpoint's db query keeps the rows with
`is_active == True`.  `now` is the endpoint's single
`datetime.now(timezone.utc)` read.  An `HTTPException` becomes
`Except.error` carrying its detail string. -/
def get_uptime_metrics (allServices : List (Service × List StatusHistoryEntry))
    (period_type : String) (now : ℚ) : Except String UptimeMetricsResponse :=
  let services := allServices.filter (fun p => p.1.is_active)
  if services = [] then
    Except.ok { services := [], overall_uptime := 100,
                period_type := period_type, period_label := "No services" }
  else if period_type = "daily" then
    let service_uptime_data := services.map (fun p =>
      { service_id := p.1.id, service_name := p.1.name
        data_points := dailyDataPoints p.1 p.2 now
        overall_uptime := dailyOverall p.1 p.2 now : ServiceUptimeData })
    let overall_uptime :=
      (service_uptime_data.map (fun s => s.overall_uptime)).sum /
        (service_uptime_data.length : ℚ)
    Except.ok { services := service_uptime_data
                overall_uptime := pythonRound2 overall_uptime
                period_type := period_type, period_label := "Last 30 days" }
  else if period_type = "hourly" then
    let service_uptime_data := services.map (fun p =>
      { service_id := p.1.id, service_name := p.1.name
        data_points := hourlyDataPoints p.1 p.2 now
        overall_uptime := hourlyOverall p.1 p.2 now : ServiceUptimeData })
    let overall_uptime :=
      (service_uptime_data.map (fun s => s.overall_uptime)).sum /
        (service_uptime_data.length : ℚ)
    Except.ok { services := service_uptime_data
                overall_uptime := pythonRound2 overall_uptime
                period_type := period_type, period_label := "Last 24 hours" }
  else
    Except.error "Invalid period_type. Use 'daily' or 'hourly'"

/-- Spec §4.3 `fleet_uptime`, stated from the spec's words for comparison
with `calculate_uptime_percentage`: run the §4.1 Reconstructor
(`calculate_service_uptime_for_period`) once per active service over the
trailing `days`-day window ending at `now`, with the events of that
window, and take the unweighted arithmetic mean across active services
rounded to 2 decimals. -/
def fleet_uptime_spec (services : List (Service × List StatusHistoryEntry))
    (now : ℚ) (days : ℕ) : ℚ :=
  let window_start := now - (days : ℚ) * 86400
  let active := services.filter (fun p => p.1.is_active)
  if active = [] then 100
  else
    pythonRound2
      ((active.map (fun p =>
        calculate_service_uptime_for_period p.1
          (sliceEvents p.2 window_start now) window_start now)).sum /
        (active.length : ℚ))

/-- Spec §4.1 step 4 stated structurally: total length of the intervals
`[start0, e1)`, `[e_i, e_(i+1))`, `[e_last, endT]` whose active status
(the preceding event's status, or `st0` for the first interval) is
Operational. -/
def intervalsOpTime (start0 : ℚ) (st0 : ServiceStatus)
    (evs : List StatusHistoryEntry) (endT : ℚ) : ℚ :=
  match evs with
  | [] => if st0 = ServiceStatus.OPERATIONAL then endT - start0 else 0
  | e :: rest =>
      (if st0 = ServiceStatus.OPERATIONAL then e.created_at - start0 else 0) +
        intervalsOpTime e.created_at e.status rest endT

/-- Spec §4.1 steps 3-4: the operational seconds the Reconstructor
attributes to the window, before division and clamping. -/
def operationalSeconds (service : Service) (history : List StatusHistoryEntry)
    (start_time end_time : ℚ) : ℚ :=
  if history = [] then
    if service.last_status_change ≤ start_time then
      if service.status = ServiceStatus.OPERATIONAL then end_time - start_time else 0
    else if service.last_status_change ≤ end_time then
      (service.last_status_change - start_time) +
        (if service.status = ServiceStatus.OPERATIONAL
          then end_time - service.last_status_change else 0)
    else end_time - start_time
  else
    intervalsOpTime start_time
      (if service.last_status_change ≤ start_time then service.status
        else ServiceStatus.OPERATIONAL)
      history end_time

/-- Severity rank of §3: MajorOutage > PartialOutage > DegradedPerformance
> Maintenance > Operational. -/
def severity : ServiceStatus → ℕ
  | ServiceStatus.MAJOR_OUTAGE => 4
  | ServiceStatus.PARTIAL_OUTAGE => 3
  | ServiceStatus.DEGRADED_PERFORMANCE => 2
  | ServiceStatus.MAINTENANCE => 1
  | ServiceStatus.OPERATIONAL => 0

/-- The worse of two statuses under the §3 severity order. -/
def worse (a b : ServiceStatus) : ServiceStatus :=
  if severity a < severity b then b else a

/-- The worst status present in a list (Operational when empty). -/
def worstOf (l : List ServiceStatus) : ServiceStatus :=
  l.foldl worse ServiceStatus.OPERATIONAL

/-- The status-page label string of each status, as status.py renders the
rollup. -/
def statusLabel : ServiceStatus → String
  | ServiceStatus.MAJOR_OUTAGE => "major_outage"
  | ServiceStatus.PARTIAL_OUTAGE => "partial_outage"
  | ServiceStatus.DEGRADED_PERFORMANCE => "degraded_performance"
  | ServiceStatus.MAINTENANCE => "maintenance"
  | ServiceStatus.OPERATIONAL => "operational"

/-- The statuses of the active services, as status.py line 52 collects
them. -/
def activeStatuses (services : List Service) : List ServiceStatus :=
  (services.filter (fun s => s.is_active)).map (fun s => s.status)

/-- The status-walk loop computes exactly the interval sum of §4.1 step 4:
folding `statusStep` from `(op0, st0, l0)` and closing the last interval
at `endT` adds `intervalsOpTime l0 st0 evs endT` to `op0`. -/
theorem foldl_statusStep_eq_intervalsOpTime (endT : ℚ) :
    ∀ (evs : List StatusHistoryEntry) (op0 : ℚ) (st0 : ServiceStatus) (l0 : ℚ),
    (if (evs.foldl statusStep (op0, st0, l0)).2.1 = ServiceStatus.OPERATIONAL
      then (evs.foldl statusStep (op0, st0, l0)).1 +
        (endT - (evs.foldl statusStep (op0, st0, l0)).2.2)
      else (evs.foldl statusStep (op0, st0, l0)).1) =
    op0 + intervalsOpTime l0 st0 evs endT := by
  intro evs
  induction evs with
  | nil =>
      intro op0 st0 l0
      simp only [List.foldl_nil, intervalsOpTime]
      split <;> ring
  | cons e rest ih =>
      intro op0 st0 l0
      simp only [List.foldl_cons, intervalsOpTime, statusStep]
      rw [ih]
      split <;> ring

/-- For an active service on a non-degenerate window, the Reconstructor
returns the clamped percentage of `operationalSeconds`. -/
theorem uptime_eq_operationalSeconds (svc : Service)
    (hist : List StatusHistoryEntry) (s e : ℚ)
    (hact : svc.is_active = true) (hlt : s < e) :
    calculate_service_uptime_for_period svc hist s e =
      min ((operationalSeconds svc hist s e) / (e - s) * 100) 100 := by
  have hne : ¬ (e - s ≤ 0) := by linarith
  unfold calculate_service_uptime_for_period operationalSeconds
  rw [hact]
  simp only [Bool.true_eq_false, if_false, if_neg hne]
  by_cases hh : hist = []
  · subst hh
    simp only [if_pos rfl]
    by_cases h1 : svc.last_status_change ≤ s
    · simp [h1]
    · simp only [if_neg h1]
      by_cases h2 : svc.last_status_change ≤ e
      · have hb : (0 : ℚ) ≤ svc.last_status_change - s := by
          push_neg at h1; linarith
        have ha : (0 : ℚ) ≤ e - svc.last_status_change := by linarith
        simp [h2, max_eq_right hb, max_eq_right ha]
      · simp [h2]
  · simp only [if_neg hh]
    rw [foldl_statusStep_eq_intervalsOpTime e hist 0 _ s, zero_add]

/-- `intervalsOpTime` is nonnegative when the events are ascending and lie
inside the window. -/
theorem intervalsOpTime_nonneg :
    ∀ (evs : List StatusHistoryEntry) (s e : ℚ) (st0 : ServiceStatus),
    s ≤ e → (∀ ev ∈ evs, s ≤ ev.created_at ∧ ev.created_at ≤ e) →
    List.Pairwise (fun a b : StatusHistoryEntry =>
      a.created_at ≤ b.created_at) evs →
    0 ≤ intervalsOpTime s st0 evs e := by
  intro evs
  induction evs with
  | nil =>
      intro s e st0 hse _ _
      simp only [intervalsOpTime]
      split
      · linarith
      · exact le_refl 0
  | cons e1 rest ih =>
      intro s e st0 hse hin hsort
      have h1 := hin e1 (List.mem_cons_self e1 rest)
      have hrest : ∀ ev ∈ rest, e1.created_at ≤ ev.created_at ∧ ev.created_at ≤ e := by
        intro ev hev
        exact ⟨(List.pairwise_cons.mp hsort).1 ev hev, (hin ev (List.mem_cons_of_mem e1 hev)).2⟩
      have hrec := ih e1.created_at e e1.status h1.2 hrest (List.pairwise_cons.mp hsort).2
      simp only [intervalsOpTime]
      have : (0 : ℚ) ≤ if st0 = ServiceStatus.OPERATIONAL then e1.created_at - s else 0 := by
        split
        · linarith [h1.1]
        · exact le_refl 0
      linarith

/-- Half-to-even rounding lands within 1/2 of the argument. -/
theorem abs_halfEvenRound_sub_le (q : ℚ) : |(halfEvenRound q : ℚ) - q| ≤ 1/2 := by
  unfold halfEvenRound
  have hfl : (⌊q⌋ : ℚ) ≤ q := Int.floor_le q
  have hfu : q < (⌊q⌋ : ℚ) + 1 := Int.lt_floor_add_one q
  split
  · rw [abs_sub_comm, abs_of_nonneg (by linarith)]
    linarith
  · rename_i h1
    push_neg at h1
    split
    · push_cast
      rw [abs_of_nonneg (by linarith)]
      linarith
    · rename_i h3
      push_neg at h3
      have he : q - (⌊q⌋ : ℚ) = 1/2 := le_antisymm h3 h1
      split
      · rw [abs_sub_comm, abs_of_nonneg (by linarith)]
        linarith
      · push_cast
        rw [abs_of_nonneg (by linarith)]
        linarith

/-- Rounding to 2 decimals lands within 1/200 of the argument. -/
theorem abs_pythonRound2_sub_le (q : ℚ) : |pythonRound2 q - q| ≤ 1/200 := by
  unfold pythonRound2
  have h := abs_halfEvenRound_sub_le (q * 100)
  have h100 : |((halfEvenRound (q * 100) : ℚ) - q * 100) / 100| ≤ (1/2) / 100 := by
    rw [abs_div]
    have : |(100 : ℚ)| = 100 := by norm_num
    rw [this]
    exact div_le_div_of_nonneg_right h (by norm_num) |>.trans (le_refl _)
  have heq : (halfEvenRound (q * 100) : ℚ) / 100 - q =
      ((halfEvenRound (q * 100) : ℚ) - q * 100) / 100 := by ring
  rw [heq]
  linarith [h100]

/-- Summed rounding error over a list of rationals. -/
theorem abs_sum_round2_sub_le :
    ∀ l : List ℚ, |(l.map pythonRound2).sum - l.sum| ≤ (l.length : ℚ) * (1/200) := by
  intro l
  induction l with
  | nil => simp
  | cons a t ih =>
      simp only [List.map_cons, List.sum_cons, List.length_cons]
      have h1 := abs_pythonRound2_sub_le a
      have htr : |pythonRound2 a + (t.map pythonRound2).sum - (a + t.sum)| ≤
          |pythonRound2 a - a| + |(t.map pythonRound2).sum - t.sum| := by
        have : pythonRound2 a + (t.map pythonRound2).sum - (a + t.sum) =
            (pythonRound2 a - a) + ((t.map pythonRound2).sum - t.sum) := by ring
        rw [this]
        exact abs_add _ _
      push_cast
      linarith

/-- Degenerate window (`end <= start`): the Reconstructor returns 100. -/
theorem uptime_of_nonpos_window (svc : Service) (evs : List StatusHistoryEntry)
    (s e : ℚ) (h : e ≤ s) :
    calculate_service_uptime_for_period svc evs s e = 100 := by
  unfold calculate_service_uptime_for_period
  by_cases ha : svc.is_active = false
  · rw [if_pos ha]
  · rw [if_neg ha]
    have hd : e - s ≤ 0 := by linarith
    simp [hd]

/-- Inactive service: the Reconstructor returns 100. -/
theorem uptime_of_inactive (svc : Service) (evs : List StatusHistoryEntry)
    (s e : ℚ) (h : svc.is_active = false) :
    calculate_service_uptime_for_period svc evs s e = 100 := by
  unfold calculate_service_uptime_for_period
  rw [if_pos h]

/-- `operationalSeconds` is nonnegative on well-formed input. -/
theorem operationalSeconds_nonneg (svc : Service)
    (evs : List StatusHistoryEntry) (s e : ℚ) (hse : s ≤ e)
    (hin : ∀ ev ∈ evs, s ≤ ev.created_at ∧ ev.created_at ≤ e)
    (hsort : List.Pairwise (fun a b : StatusHistoryEntry =>
      a.created_at ≤ b.created_at) evs) :
    0 ≤ operationalSeconds svc evs s e := by
  unfold operationalSeconds
  by_cases hh : evs = []
  · simp only [if_pos hh]
    by_cases h1 : svc.last_status_change ≤ s
    · simp only [if_pos h1]
      split
      · linarith
      · exact le_refl 0
    · simp only [if_neg h1]
      push_neg at h1
      by_cases h2 : svc.last_status_change ≤ e
      · simp only [if_pos h2]
        split
        · linarith
        · linarith
      · simp only [if_neg h2]
        linarith
  · simp only [if_neg hh]
    exact intervalsOpTime_nonneg evs s e _ hse hin hsort

/-- Example service of spec §8 "Logged transitions": currently
MajorOutage since `t = 60` (the single event's transition). -/
def svcEx1 : Service := ⟨1, "api", ServiceStatus.MAJOR_OUTAGE, 60, true⟩

/-- Example service for the two-event §8 run: back to Operational since
`t = 70`. -/
def svcEx2 : Service := ⟨2, "web", ServiceStatus.OPERATIONAL, 70, true⟩

/-- Example service of spec §8 "Single mid-window transition, no logged
event": MajorOutage since `t = 400`. -/
def svcC2a : Service := ⟨3, "cache", ServiceStatus.MAJOR_OUTAGE, 400, true⟩

/-- An inactive service. -/
def svcInact : Service := ⟨4, "legacy", ServiceStatus.MAJOR_OUTAGE, 0, false⟩

/-- C2: with an empty in-window event list, the Reconstructor applies the
three-way empty-log policy of §4.1 step 3: 100/0 by current status when
the last change precedes the window, the split percentage when the change
falls inside the window, and 100 when the change postdates the window. -/
theorem claim_C2_empty_log_policy (svc : Service) (s e : ℚ)
    (hact : svc.is_active = true) (hlt : s < e) :
    calculate_service_uptime_for_period svc [] s e =
      if svc.last_status_change ≤ s then
        (if svc.status = ServiceStatus.OPERATIONAL then 100 else 0)
      else if svc.last_status_change ≤ e then
        ((svc.last_status_change - s) +
          (if svc.status = ServiceStatus.OPERATIONAL
            then e - svc.last_status_change else 0)) / (e - s) * 100
      else 100 := by
  rw [uptime_eq_operationalSeconds svc [] s e hact hlt]
  have hpos : (0:ℚ) < e - s := by linarith
  have hnil : operationalSeconds svc [] s e =
      if svc.last_status_change ≤ s then
        (if svc.status = ServiceStatus.OPERATIONAL then e - s else 0)
      else if svc.last_status_change ≤ e then
        (svc.last_status_change - s) +
          (if svc.status = ServiceStatus.OPERATIONAL
            then e - svc.last_status_change else 0)
      else e - s := rfl
  rw [hnil]
  by_cases h1 : svc.last_status_change ≤ s
  · rw [if_pos h1, if_pos h1]
    by_cases hop : svc.status = ServiceStatus.OPERATIONAL
    · rw [if_pos hop, if_pos hop, div_self (ne_of_gt hpos)]
      norm_num
    · rw [if_neg hop, if_neg hop, zero_div, zero_mul]
      exact min_eq_left (by norm_num)
  · rw [if_neg h1, if_neg h1]
    push_neg at h1
    by_cases h2 : svc.last_status_change ≤ e
    · rw [if_pos h2, if_pos h2]
      have hle : ((svc.last_status_change - s) +
          (if svc.status = ServiceStatus.OPERATIONAL
            then e - svc.last_status_change else 0)) / (e - s) * 100 ≤ 100 := by
        have hX : (svc.last_status_change - s) +
            (if svc.status = ServiceStatus.OPERATIONAL
              then e - svc.last_status_change else 0) ≤ e - s := by
          split <;> linarith
        rw [div_mul_eq_mul_div, div_le_iff₀ hpos]
        linarith
      exact min_eq_left hle
    · rw [if_neg h2, if_neg h2, div_self (ne_of_gt hpos)]
      norm_num

/-- C2 witness, the §8 mid-window example: window `[0, 1000]`,
`last_status_change = 400`, current status MajorOutage, empty events ⇒
40% uptime. -/
theorem claim_C2_witness :
    calculate_service_uptime_for_period svcC2a [] 0 1000 = 40 :=
  (claim_C2_empty_log_policy svcC2a 0 1000 rfl (by norm_num)).trans
    (by simp [svcC2a]; norm_num)

/-- C8: the Reconstructor returns exactly 100 on a degenerate window
(`end <= start`) and on an inactive service, regardless of snapshot and
events. -/
theorem claim_C8_degenerate_and_inactive (svc : Service)
    (evs : List StatusHistoryEntry) (s e : ℚ) :
    (e ≤ s → calculate_service_uptime_for_period svc evs s e = 100) ∧
    (svc.is_active = false → calculate_service_uptime_for_period svc evs s e = 100) :=
  ⟨uptime_of_nonpos_window svc evs s e, uptime_of_inactive svc evs s e⟩

/-- C8 witness: a zero-length window on an active outage-struck service,
and an inactive service with an event, both give 100. -/
theorem claim_C8_witness :
    calculate_service_uptime_for_period svcEx1 [] 5 5 = 100 ∧
    calculate_service_uptime_for_period svcInact
      [⟨10, ServiceStatus.OPERATIONAL⟩] 0 100 = 100 :=
  ⟨(claim_C8_degenerate_and_inactive svcEx1 [] 5 5).1 (le_refl 5),
   (claim_C8_degenerate_and_inactive svcInact
      [⟨10, ServiceStatus.OPERATIONAL⟩] 0 100).2 rfl⟩

/-- C3: with a non-empty ascending in-window event list, the Reconstructor
starts from `snapshot.status` when `last_status_change <= window.start`
and Operational otherwise, and accumulates exactly the Operational
interval lengths `[start, e1)`, `[e_i, e_(i+1))`, `[e_last, end]`
(`intervalsOpTime`); the two §8 example runs both yield 60. -/
theorem claim_C3_event_walk :
    (∀ (svc : Service) (evs : List StatusHistoryEntry) (s e : ℚ),
      svc.is_active = true → s < e → evs ≠ [] →
      List.Pairwise (fun a b : StatusHistoryEntry =>
        a.created_at ≤ b.created_at) evs →
      (∀ ev ∈ evs, s ≤ ev.created_at ∧ ev.created_at ≤ e) →
      calculate_service_uptime_for_period svc evs s e =
        min ((intervalsOpTime s
          (if svc.last_status_change ≤ s then svc.status
            else ServiceStatus.OPERATIONAL) evs e) / (e - s) * 100) 100) ∧
    calculate_service_uptime_for_period svcEx1
      [⟨60, ServiceStatus.MAJOR_OUTAGE⟩] 0 100 = 60 ∧
    calculate_service_uptime_for_period svcEx2
      [⟨30, ServiceStatus.DEGRADED_PERFORMANCE⟩,
        ⟨70, ServiceStatus.OPERATIONAL⟩] 0 100 = 60 := by
  refine ⟨?_, ?_, ?_⟩
  · intro svc evs s e hact hlt hne _ _
    rw [uptime_eq_operationalSeconds svc evs s e hact hlt]
    unfold operationalSeconds
    rw [if_neg hne]
  · simp [calculate_service_uptime_for_period, svcEx1, statusStep]
    norm_num
  · simp [calculate_service_uptime_for_period, svcEx2, statusStep]
    norm_num

/-- C3 witness: the hypotheses of the walk characterization hold at the §8
one-event input, and there the interval sum gives the 60% result. -/
theorem claim_C3_witness :
    calculate_service_uptime_for_period svcEx1
      [⟨60, ServiceStatus.MAJOR_OUTAGE⟩] 0 100 =
      min ((intervalsOpTime 0
        (if svcEx1.last_status_change ≤ 0 then svcEx1.status
          else ServiceStatus.OPERATIONAL)
        [⟨60, ServiceStatus.MAJOR_OUTAGE⟩] 100) / (100 - 0) * 100) 100 :=
  claim_C3_event_walk.1 svcEx1 [⟨60, ServiceStatus.MAJOR_OUTAGE⟩] 0 100
    rfl (by norm_num) (by simp)
    (by simp) (by intro ev hev; simp at hev; rw [hev]; norm_num)

/-- C6: under ascending in-window events the Reconstructor's result is
clamped to `[0, 100]`, and for an active service on a positive-length
window it equals `min(100, 100 * operational_seconds / (end - start))`. -/
theorem claim_C6_clamp_and_formula (svc : Service)
    (evs : List StatusHistoryEntry) (s e : ℚ)
    (hsort : List.Pairwise (fun a b : StatusHistoryEntry =>
      a.created_at ≤ b.created_at) evs)
    (hin : ∀ ev ∈ evs, s ≤ ev.created_at ∧ ev.created_at ≤ e) :
    (0 ≤ calculate_service_uptime_for_period svc evs s e ∧
      calculate_service_uptime_for_period svc evs s e ≤ 100) ∧
    (svc.is_active = true → s < e →
      calculate_service_uptime_for_period svc evs s e =
        min 100 (100 * (operationalSeconds svc evs s e) / (e - s))) := by
  constructor
  · by_cases ha : svc.is_active = true
    · by_cases hd : s < e
      · rw [uptime_eq_operationalSeconds svc evs s e ha hd]
        have hop : 0 ≤ operationalSeconds svc evs s e :=
          operationalSeconds_nonneg svc evs s e (le_of_lt hd) hin hsort
        have hpos : (0:ℚ) < e - s := by linarith
        constructor
        · apply le_min
          · apply mul_nonneg (div_nonneg hop (le_of_lt hpos))
            norm_num
          · norm_num
        · exact min_le_right _ _
      · rw [uptime_of_nonpos_window svc evs s e (by linarith)]
        norm_num
    · rw [uptime_of_inactive svc evs s e (by
        cases h : svc.is_active
        · rfl
        · exact absurd h ha)]
      norm_num
  · intro ha hd
    rw [uptime_eq_operationalSeconds svc evs s e ha hd, min_comm]
    congr 1
    rw [div_mul_eq_mul_div, mul_comm]

/-- C6 witness: the clamp holds at the §8 one-event input. -/
theorem claim_C6_witness :
    0 ≤ calculate_service_uptime_for_period svcEx1
        [⟨60, ServiceStatus.MAJOR_OUTAGE⟩] 0 100 ∧
    calculate_service_uptime_for_period svcEx1
        [⟨60, ServiceStatus.MAJOR_OUTAGE⟩] 0 100 ≤ 100 :=
  (claim_C6_clamp_and_formula svcEx1 [⟨60, ServiceStatus.MAJOR_OUTAGE⟩] 0 100
    (by simp) (by intro ev hev; simp at hev; rw [hev]; norm_num)).1

/-- `worse` never lowers the severity of its left argument. -/
theorem severity_le_worse_left (a b : ServiceStatus) :
    severity a ≤ severity (worse a b) := by
  unfold worse
  split
  · exact le_of_lt (by assumption)
  · exact le_refl _

/-- `worse` never lowers the severity of its right argument. -/
theorem severity_le_worse_right (a b : ServiceStatus) :
    severity b ≤ severity (worse a b) := by
  unfold worse
  split
  · exact le_refl _
  · exact le_of_not_lt (by assumption)

/-- The severity of the fold's seed never exceeds the fold's severity. -/
theorem severity_le_foldl_worse :
    ∀ (l : List ServiceStatus) (acc : ServiceStatus),
    severity acc ≤ severity (l.foldl worse acc) := by
  intro l
  induction l with
  | nil => intro acc; exact le_refl _
  | cons x t ih =>
      intro acc
      exact le_trans (severity_le_worse_left acc x) (ih (worse acc x))

/-- Every member's severity is bounded by the fold's severity. -/
theorem severity_mem_le_foldl_worse :
    ∀ (l : List ServiceStatus) (acc x : ServiceStatus), x ∈ l →
    severity x ≤ severity (l.foldl worse acc) := by
  intro l
  induction l with
  | nil => intro acc x hx; cases hx
  | cons y t ih =>
      intro acc x hx
      rcases List.mem_cons.mp hx with h | h
      · subst h
        exact le_trans (severity_le_worse_right acc x)
          (severity_le_foldl_worse t _)
      · exact ih _ x h

/-- The fold over `worse` returns its seed or a member of the list. -/
theorem foldl_worse_mem :
    ∀ (l : List ServiceStatus) (acc : ServiceStatus),
    l.foldl worse acc = acc ∨ l.foldl worse acc ∈ l := by
  intro l
  induction l with
  | nil => intro acc; exact Or.inl rfl
  | cons y t ih =>
      intro acc
      rcases ih (worse acc y) with h | h
      · by_cases hw : severity acc < severity y
        · right
          rw [List.foldl_cons, h]
          unfold worse
          rw [if_pos hw]
          exact List.mem_cons_self y t
        · left
          rw [List.foldl_cons, h]
          unfold worse
          rw [if_neg hw]
      · right
        rw [List.foldl_cons]
        exact List.mem_cons_of_mem y h

/-- When a MajorOutage is present, it is the worst status. -/
theorem worstOf_of_major (l : List ServiceStatus)
    (hM : ServiceStatus.MAJOR_OUTAGE ∈ l) :
    worstOf l = ServiceStatus.MAJOR_OUTAGE := by
  have h4 : severity ServiceStatus.MAJOR_OUTAGE ≤ severity (worstOf l) :=
    severity_mem_le_foldl_worse l ServiceStatus.OPERATIONAL _ hM
  cases hc : worstOf l <;> rw [hc] at h4 <;> simp [severity] at h4 <;> rfl

/-- Without MajorOutage, a present PartialOutage is the worst status. -/
theorem worstOf_of_partial (l : List ServiceStatus)
    (hM : ServiceStatus.MAJOR_OUTAGE ∉ l)
    (hP : ServiceStatus.PARTIAL_OUTAGE ∈ l) :
    worstOf l = ServiceStatus.PARTIAL_OUTAGE := by
  have h3 : severity ServiceStatus.PARTIAL_OUTAGE ≤ severity (worstOf l) :=
    severity_mem_le_foldl_worse l ServiceStatus.OPERATIONAL _ hP
  have hmem : worstOf l = ServiceStatus.OPERATIONAL ∨ worstOf l ∈ l :=
    foldl_worse_mem l ServiceStatus.OPERATIONAL
  rcases hmem with h | h
  · rw [h] at h3
    simp [severity] at h3
  · cases hc : worstOf l <;> rw [hc] at h3 h <;> simp [severity] at h3 <;>
      first
      | rfl
      | exact absurd h hM

/-- Without Major/PartialOutage, present DegradedPerformance is worst. -/
theorem worstOf_of_degraded (l : List ServiceStatus)
    (hM : ServiceStatus.MAJOR_OUTAGE ∉ l)
    (hP : ServiceStatus.PARTIAL_OUTAGE ∉ l)
    (hD : ServiceStatus.DEGRADED_PERFORMANCE ∈ l) :
    worstOf l = ServiceStatus.DEGRADED_PERFORMANCE := by
  have h2 : severity ServiceStatus.DEGRADED_PERFORMANCE ≤ severity (worstOf l) :=
    severity_mem_le_foldl_worse l ServiceStatus.OPERATIONAL _ hD
  have hmem : worstOf l = ServiceStatus.OPERATIONAL ∨ worstOf l ∈ l :=
    foldl_worse_mem l ServiceStatus.OPERATIONAL
  rcases hmem with h | h
  · rw [h] at h2
    simp [severity] at h2
  · cases hc : worstOf l <;> rw [hc] at h2 h <;> simp [severity] at h2 <;>
      first
      | rfl
      | exact absurd h hM
      | exact absurd h hP

/-- Without the outage kinds, present Maintenance is worst. -/
theorem worstOf_of_maintenance (l : List ServiceStatus)
    (hM : ServiceStatus.MAJOR_OUTAGE ∉ l)
    (hP : ServiceStatus.PARTIAL_OUTAGE ∉ l)
    (hD : ServiceStatus.DEGRADED_PERFORMANCE ∉ l)
    (hMt : ServiceStatus.MAINTENANCE ∈ l) :
    worstOf l = ServiceStatus.MAINTENANCE := by
  have h1 : severity ServiceStatus.MAINTENANCE ≤ severity (worstOf l) :=
    severity_mem_le_foldl_worse l ServiceStatus.OPERATIONAL _ hMt
  have hmem : worstOf l = ServiceStatus.OPERATIONAL ∨ worstOf l ∈ l :=
    foldl_worse_mem l ServiceStatus.OPERATIONAL
  rcases hmem with h | h
  · rw [h] at h1
    simp [severity] at h1
  · cases hc : worstOf l <;> rw [hc] at h1 h <;> simp [severity] at h1 <;>
      first
      | rfl
      | exact absurd h hM
      | exact absurd h hP
      | exact absurd h hD

/-- With none of the four non-Operational kinds present, the worst status
is Operational. -/
theorem worstOf_of_none (l : List ServiceStatus)
    (hM : ServiceStatus.MAJOR_OUTAGE ∉ l)
    (hP : ServiceStatus.PARTIAL_OUTAGE ∉ l)
    (hD : ServiceStatus.DEGRADED_PERFORMANCE ∉ l)
    (hMt : ServiceStatus.MAINTENANCE ∉ l) :
    worstOf l = ServiceStatus.OPERATIONAL := by
  have hmem : worstOf l = ServiceStatus.OPERATIONAL ∨ worstOf l ∈ l :=
    foldl_worse_mem l ServiceStatus.OPERATIONAL
  rcases hmem with h | h
  · exact h
  · cases hc : worstOf l <;> rw [hc] at h <;>
      first
      | rfl
      | exact absurd h hM
      | exact absurd h hP
      | exact absurd h hD
      | exact absurd h hMt

/-- Folding `worse` is insensitive to the order of the last two
elements. -/
theorem worse_right_comm (a x y : ServiceStatus) :
    worse (worse a x) y = worse (worse a y) x := by
  cases a <;> cases x <;> cases y <;> rfl

/-- Folding `worse` is invariant under permutation of the list. -/
theorem foldl_worse_perm :
    ∀ {l l' : List ServiceStatus}, l.Perm l' →
    ∀ acc : ServiceStatus, l.foldl worse acc = l'.foldl worse acc := by
  intro l l' h
  induction h with
  | nil => intro acc; rfl
  | cons x _ ih =>
      intro acc
      simp only [List.foldl_cons]
      exact ih (worse acc x)
  | swap x y t =>
      intro acc
      simp only [List.foldl_cons]
      rw [worse_right_comm]
  | trans _ _ ih1 ih2 =>
      intro acc
      rw [ih1 acc, ih2 acc]

/-- `calculate_overall_status` returns the label of the worst active
status. -/
theorem overall_status_eq_worst_label (services : List Service) :
    calculate_overall_status services =
      statusLabel (worstOf (activeStatuses services)) := by
  unfold calculate_overall_status
  by_cases h0 : services = []
  · subst h0
    rfl
  · rw [if_neg h0]
    have hsts : ((services.filter (fun s => s.is_active)).map
        (fun s => s.status)) = activeStatuses services := rfl
    rw [hsts]
    by_cases h1 : activeStatuses services = []
    · rw [if_pos h1, h1]
      rfl
    · rw [if_neg h1]
      by_cases hM : ServiceStatus.MAJOR_OUTAGE ∈ activeStatuses services
      · rw [if_pos hM, worstOf_of_major _ hM]
        rfl
      · rw [if_neg hM]
        by_cases hP : ServiceStatus.PARTIAL_OUTAGE ∈ activeStatuses services
        · rw [if_pos hP, worstOf_of_partial _ hM hP]
          rfl
        · rw [if_neg hP]
          by_cases hD : ServiceStatus.DEGRADED_PERFORMANCE ∈ activeStatuses services
          · rw [if_pos hD, worstOf_of_degraded _ hM hP hD]
            rfl
          · rw [if_neg hD]
            by_cases hMt : ServiceStatus.MAINTENANCE ∈ activeStatuses services
            · rw [if_pos hMt, worstOf_of_maintenance _ hM hP hD hMt]
              rfl
            · rw [if_neg hMt, worstOf_of_none _ hM hP hD hMt]
              rfl

/-- Example services for the §8 fleet-rollup runs. -/
def svcO : Service := ⟨10, "s1", ServiceStatus.OPERATIONAL, 0, true⟩

/-- A degraded active service. -/
def svcD : Service := ⟨11, "s2", ServiceStatus.DEGRADED_PERFORMANCE, 0, true⟩

/-- A major-outage active service. -/
def svcM : Service := ⟨12, "s3", ServiceStatus.MAJOR_OUTAGE, 0, true⟩

/-- C7: `calculate_overall_status` returns the worst active status under
the §3 severity order, is invariant under permutation of the service
list, yields "operational" on an empty or all-inactive list, and the §8
example sets give "degraded_performance" and "major_outage" in any
order. -/
theorem claim_C7_worst_status_rollup :
    (∀ services : List Service,
      calculate_overall_status services =
        statusLabel (worstOf (activeStatuses services))) ∧
    (∀ l l' : List Service, l.Perm l' →
      calculate_overall_status l = calculate_overall_status l') ∧
    (∀ services : List Service, activeStatuses services = [] →
      calculate_overall_status services = "operational") ∧
    calculate_overall_status [svcO, svcD] = "degraded_performance" ∧
    calculate_overall_status [svcO, svcD, svcM] = "major_outage" ∧
    calculate_overall_status [svcM, svcD, svcO] = "major_outage" := by
  refine ⟨overall_status_eq_worst_label, ?_, ?_, ?_, ?_, ?_⟩
  · intro l l' h
    rw [overall_status_eq_worst_label, overall_status_eq_worst_label]
    have hp : (activeStatuses l).Perm (activeStatuses l') :=
      (h.filter _).map _
    unfold worstOf
    rw [foldl_worse_perm hp]
  · intro services h
    rw [overall_status_eq_worst_label, h]
    rfl
  · simp [calculate_overall_status, svcO, svcD]
  · simp [calculate_overall_status, svcO, svcD, svcM]
  · simp [calculate_overall_status, svcO, svcD, svcM]

/-- C7 witness: permutation invariance and the all-inactive rule applied
at concrete service lists. -/
theorem claim_C7_witness :
    calculate_overall_status [svcM, svcD, svcO] =
      calculate_overall_status [svcO, svcD, svcM] ∧
    calculate_overall_status [svcInact] = "operational" :=
  ⟨claim_C7_worst_status_rollup.2.1 [svcM, svcD, svcO] [svcO, svcD, svcM]
      (by decide),
   claim_C7_worst_status_rollup.2.2.1 [svcInact] (by simp [activeStatuses, svcInact])⟩

/-- The service-summing loop of status.py lines 87-128 equals the sum of
the per-service contributions over the active services. -/
theorem foldl_active_sum (g : Service × List StatusHistoryEntry → ℚ) :
    ∀ (services : List (Service × List StatusHistoryEntry)) (acc : ℚ),
    services.foldl (fun acc p =>
        if p.1.is_active = false then acc else acc + g p) acc =
      acc + ((services.filter (fun p => p.1.is_active)).map g).sum := by
  intro services
  induction services with
  | nil => intro acc; simp
  | cons p t ih =>
      intro acc
      by_cases hp : p.1.is_active
      · simp only [List.foldl_cons, List.filter_cons, hp, if_true,
          Bool.true_eq_false, if_false, List.map_cons, List.sum_cons]
        rw [ih]
        ring
      · have hp2 : p.1.is_active = false := by
          cases h : p.1.is_active
          · rfl
          · exact absurd h hp
        simp only [List.foldl_cons, List.filter_cons, hp2, if_true,
          Bool.false_eq_true, if_false]
        rw [ih]

/-- When an active service has an event inside the trailing-30-day window,
the log holds no future events, and its snapshot changed after the window
start, its status-page contribution (status.py lines 91-128) coincides
with the §4.1 Reconstructor run on the window slice. -/
theorem contribution_eq_reconstructor (svc : Service)
    (log : List StatusHistoryEntry) (now : ℚ)
    (hact : svc.is_active = true)
    (hpast : ∀ ev ∈ log, ev.created_at ≤ now)
    (hne : sliceEvents log (now - 2592000) now ≠ [])
    (hlast : now - 2592000 < svc.last_status_change) :
    statusPageServiceContribution now 30 svc log =
      calculate_service_uptime_for_period svc
        (sliceEvents log (now - 2592000) now) (now - 2592000) now := by
  have hcut : now - ((30:ℕ):ℚ) * 86400 = now - 2592000 := by norm_num
  have hfe : log.filter
        (fun ev => decide (now - ((30:ℕ):ℚ) * 86400 ≤ ev.created_at)) =
      sliceEvents log (now - 2592000) now := by
    unfold sliceEvents
    apply List.filter_congr
    intro ev hev
    rw [decide_eq_decide]
    constructor
    · intro hle
      refine ⟨by linarith [hcut ▸ hle], hpast ev hev⟩
    · rintro ⟨hle, _⟩
      rw [hcut]
      exact hle
  have h2592 : now - (now - 2592000) = 2592000 := by ring
  have hpos : ¬ (now - (now - 2592000) ≤ 0) := by rw [h2592]; norm_num
  have htot : ((30:ℕ):ℚ) * 24 * 60 * 60 = 2592000 := by norm_num
  unfold statusPageServiceContribution
  dsimp only
  rw [hfe, if_neg hne, htot]
  unfold calculate_service_uptime_for_period
  rw [hact]
  dsimp only
  simp only [Bool.true_eq_false, if_false]
  rw [if_neg hpos, if_neg hne, if_neg (not_le.mpr hlast), h2592, hcut]

/-- A service whose current MajorOutage predates the trailing window, with
an empty event log. -/
def svcC1 : Service := ⟨5, "db", ServiceStatus.MAJOR_OUTAGE, -3000000, true⟩

/-- C1 counterexample: for the stale-outage service with no events,
status.py's fleet uptime says 100 while the per-service mean of the §4.1
Reconstructor over the trailing 30 days says 0 — the fleet computation
special-cases empty logs to 100 instead of applying the Reconstructor's
empty-log policy. -/
theorem claim_C1_counterexample :
    calculate_uptime_percentage [(svcC1, [])] 0 30 ≠
      fleet_uptime_spec [(svcC1, [])] 0 30 := by
  have hL : calculate_uptime_percentage [(svcC1, [])] 0 30 = 100 := by
    simp [calculate_uptime_percentage, statusPageServiceContribution, svcC1,
      pythonRound2, halfEvenRound]
    norm_num
  have hR : fleet_uptime_spec [(svcC1, [])] 0 30 = 0 := by
    simp [fleet_uptime_spec, calculate_service_uptime_for_period, sliceEvents,
      svcC1, pythonRound2, halfEvenRound]
    norm_num
  rw [hL, hR]
  norm_num

/-- C1 amended: the fleet uptime of status.py agrees with the unweighted
rounded mean of the §4.1 Reconstructor over the trailing 30 days provided
every active service has at least one event inside the window, no event
after `now`, and a `last_status_change` after the window start; without
those provisos the fleet computation diverges (it maps empty logs to 100
and always assumes Operational at the window start). -/
theorem claim_C1_amended (services : List (Service × List StatusHistoryEntry))
    (now : ℚ)
    (h : ∀ p ∈ services, p.1.is_active = true →
      (∀ ev ∈ p.2, ev.created_at ≤ now) ∧
      sliceEvents p.2 (now - 2592000) now ≠ [] ∧
      now - 2592000 < p.1.last_status_change) :
    calculate_uptime_percentage services now 30 =
      fleet_uptime_spec services now 30 := by
  have hcut : now - ((30:ℕ):ℚ) * 86400 = now - 2592000 := by norm_num
  unfold calculate_uptime_percentage fleet_uptime_spec
  dsimp only
  rw [hcut]
  by_cases h0 : services = []
  · subst h0
    simp
  · rw [if_neg h0]
    by_cases h1 : services.filter (fun p => p.1.is_active) = []
    · rw [h1]
      simp
    · have hlen : (services.filter (fun p => p.1.is_active)).length ≠ 0 := by
        simpa [List.length_eq_zero] using h1
      rw [if_neg hlen, if_neg h1, foldl_active_sum, zero_add]
      have hmap : (services.filter (fun p => p.1.is_active)).map
            (fun p => statusPageServiceContribution now 30 p.1 p.2) =
          (services.filter (fun p => p.1.is_active)).map
            (fun p => calculate_service_uptime_for_period p.1
              (sliceEvents p.2 (now - 2592000) now) (now - 2592000) now) := by
        apply List.map_congr_left
        intro p hp
        have hmem := List.mem_filter.mp hp
        have hact : p.1.is_active = true := by simpa using hmem.2
        obtain ⟨hpast, hne, hlast⟩ := h p hmem.1 hact
        exact contribution_eq_reconstructor p.1 p.2 now hact hpast hne hlast
      rw [hmap]

/-- A service in outage since `t = -100`, with the matching logged
event. -/
def svcW : Service := ⟨6, "queue", ServiceStatus.MAJOR_OUTAGE, -100, true⟩

/-- The event recording svcW's outage transition. -/
def evW : StatusHistoryEntry := ⟨-100, ServiceStatus.MAJOR_OUTAGE⟩

/-- C1 witness: the amended equivalence applied at a one-service fleet
with an in-window event. -/
theorem claim_C1_witness :
    calculate_uptime_percentage [(svcW, [evW])] 0 30 =
      fleet_uptime_spec [(svcW, [evW])] 0 30 :=
  claim_C1_amended [(svcW, [evW])] 0 (by
    intro p hp _
    simp only [List.mem_singleton] at hp
    subst hp
    refine ⟨?_, ?_, ?_⟩
    · intro ev hev
      simp only [List.mem_singleton] at hev
      subst hev
      norm_num [evW]
    · simp [sliceEvents, evW]
      norm_num
    · norm_num [svcW])

/-- C4 counterexample: with no active services, the metrics endpoint
returns the empty-fleet 100% response for the unsupported period kind
"weekly" instead of raising the validation error — the early return at
metrics.py lines 153-159 precedes the period_type check. -/
theorem claim_C4_counterexample :
    get_uptime_metrics [] "weekly" 0 =
      Except.ok { services := [], overall_uptime := 100,
                  period_type := "weekly", period_label := "No services" } := rfl

/-- C4 amended: for every period_type outside {"daily", "hourly"} the
bucketing endpoint raises the input-validation error before any
computation, provided the organization has at least one active service
(with no active services the empty-fleet early return wins). -/
theorem claim_C4_amended
    (services : List (Service × List StatusHistoryEntry))
    (period_type : String) (now : ℚ)
    (hne : services.filter (fun p => p.1.is_active) ≠ [])
    (hd : period_type ≠ "daily") (hh : period_type ≠ "hourly") :
    get_uptime_metrics services period_type now =
      Except.error "Invalid period_type. Use 'daily' or 'hourly'" := by
  unfold get_uptime_metrics
  dsimp only
  rw [if_neg hne, if_neg hd, if_neg hh]

/-- C4 witness: a fleet with one active service and period kind "weekly"
hits the validation error. -/
theorem claim_C4_witness :
    get_uptime_metrics [(svcW, [])] "weekly" 0 =
      Except.error "Invalid period_type. Use 'daily' or 'hourly'" :=
  claim_C4_amended [(svcW, [])] "weekly" 0
    (by simp [svcW]) (by decide) (by decide)

/-- C10: an organization with no active services gets the 100% empty
response for every period_type string (validation never runs), and the
status-page fleet uptime returns exactly 100 on an empty or all-inactive
service list. -/
theorem claim_C10_empty_fleet
    (services : List (Service × List StatusHistoryEntry))
    (period_type : String) (now : ℚ) (days : ℕ) :
    (services.filter (fun p => p.1.is_active) = [] →
      get_uptime_metrics services period_type now =
        Except.ok { services := [], overall_uptime := 100,
                    period_type := period_type,
                    period_label := "No services" }) ∧
    calculate_uptime_percentage [] now days = 100 ∧
    ((∀ p ∈ services, p.1.is_active = false) →
      calculate_uptime_percentage services now days = 100) := by
  refine ⟨?_, rfl, ?_⟩
  · intro h
    unfold get_uptime_metrics
    dsimp only
    rw [if_pos h]
  · intro h
    unfold calculate_uptime_percentage
    dsimp only
    by_cases h0 : services = []
    · rw [if_pos h0]
    · rw [if_neg h0]
      have hf : services.filter (fun p => p.1.is_active) = [] := by
        rw [List.filter_eq_nil]
        intro p hp
        simp [h p hp]
      rw [hf]
      simp

/-- C10 witness: a fleet holding one inactive service gets the empty 100%
response under the invalid period kind "weekly", and the status-page
fleet uptime on that fleet is 100. -/
theorem claim_C10_witness :
    get_uptime_metrics [(svcInact, [])] "weekly" 0 =
      Except.ok { services := [], overall_uptime := 100,
                  period_type := "weekly", period_label := "No services" } ∧
    calculate_uptime_percentage [(svcInact, [])] 5 7 = 100 :=
  ⟨(claim_C10_empty_fleet [(svcInact, [])] "weekly" 0 7).1
      (by simp [svcInact]),
   (claim_C10_empty_fleet [(svcInact, [])] "weekly" 5 7).2.2 (by
      intro p hp
      simp only [List.mem_singleton] at hp
      subst hp
      rfl)⟩

/-- A service in outage since `t = 0` with its logged event, used to show
the fleet computation reads the wall clock. -/
def svcT : Service := ⟨7, "cdn", ServiceStatus.MAJOR_OUTAGE, 0, true⟩

/-- svcT's outage event. -/
def evT : StatusHistoryEntry := ⟨0, ServiceStatus.MAJOR_OUTAGE⟩

/-- C9 counterexample: status.py's fleet uptime is not a function of its
passed-in inputs (services, logs, days) alone — with identical passed-in
data, invocations whose internal `datetime.utcnow()` reads differ by one
day return 96.67 versus 93.33. -/
theorem claim_C9_counterexample :
    calculate_uptime_percentage [(svcT, [evT])] 86400 30 ≠
      calculate_uptime_percentage [(svcT, [evT])] 172800 30 := by
  have h1 : statusPageServiceContribution 86400 30
      ⟨7, "cdn", ServiceStatus.MAJOR_OUTAGE, 0, true⟩ [evT] = 290/3 := by
    unfold statusPageServiceContribution
    dsimp only
    norm_num [evT, List.filter]
    simp [statusStep]
    norm_num
  have h2 : statusPageServiceContribution 172800 30
      ⟨7, "cdn", ServiceStatus.MAJOR_OUTAGE, 0, true⟩ [evT] = 280/3 := by
    unfold statusPageServiceContribution
    dsimp only
    norm_num [evT, List.filter]
    simp [statusStep]
    norm_num
  have hL : calculate_uptime_percentage [(svcT, [evT])] 86400 30 = 9667/100 := by
    unfold calculate_uptime_percentage
    dsimp only
    norm_num [svcT, List.filter]
    rw [h1]
    unfold pythonRound2 halfEvenRound
    norm_num
  have hR : calculate_uptime_percentage [(svcT, [evT])] 172800 30 = 9333/100 := by
    unfold calculate_uptime_percentage
    dsimp only
    norm_num [svcT, List.filter]
    rw [h2]
    unfold pythonRound2 halfEvenRound
    norm_num
  rw [hL, hR]
  norm_num

/-- C9 amended: both uptime computations are pure — invocations with
identical inputs give identical outputs — once the fleet computation's
internally-read clock instant `now` is counted among its inputs; the
per-period Reconstructor is a function of exactly its passed-in
(snapshot, events, window). -/
theorem claim_C9_amended :
    (∀ (svc1 svc2 : Service) (hist1 hist2 : List StatusHistoryEntry)
      (s1 s2 e1 e2 : ℚ),
      svc1 = svc2 → hist1 = hist2 → s1 = s2 → e1 = e2 →
      calculate_service_uptime_for_period svc1 hist1 s1 e1 =
        calculate_service_uptime_for_period svc2 hist2 s2 e2) ∧
    (∀ (sv1 sv2 : List (Service × List StatusHistoryEntry))
      (n1 n2 : ℚ) (d1 d2 : ℕ),
      sv1 = sv2 → n1 = n2 → d1 = d2 →
      calculate_uptime_percentage sv1 n1 d1 =
        calculate_uptime_percentage sv2 n2 d2) := by
  constructor
  · intro _ _ _ _ _ _ _ _ h1 h2 h3 h4
    rw [h1, h2, h3, h4]
  · intro _ _ _ _ _ _ h1 h2 h3
    rw [h1, h2, h3]

/-- C9 witness: the congruences applied at concrete inputs. -/
theorem claim_C9_witness :
    calculate_service_uptime_for_period svcEx1 [] 0 1 =
      calculate_service_uptime_for_period svcEx1 [] 0 1 ∧
    calculate_uptime_percentage [(svcT, [evT])] 86400 30 =
      calculate_uptime_percentage [(svcT, [evT])] 86400 30 :=
  ⟨claim_C9_amended.1 svcEx1 svcEx1 [] [] 0 0 1 1 rfl rfl rfl rfl,
   claim_C9_amended.2 [(svcT, [evT])] [(svcT, [evT])] 86400 86400 30 30
      rfl rfl rfl⟩

/-- Flooring to midnight commutes with shifting by whole days. -/
theorem floorDay_sub_nat (t : ℚ) (k : ℕ) :
    floorDay (t - (k:ℚ) * 86400) = floorDay t - (k:ℚ) * 86400 := by
  unfold floorDay
  have h : (t - (k:ℚ) * 86400) / 86400 = t / 86400 - ((k:ℤ):ℚ) := by
    push_cast
    ring
  rw [h, Int.floor_sub_int]
  push_cast
  ring

/-- Daily bucket `i` runs the Reconstructor over
`[floorDay(now) - (i+1) days, floorDay(now) - i days]`. -/
theorem dailyBucketUptime_eq (svc : Service) (log : List StatusHistoryEntry)
    (now : ℚ) (i : ℕ) :
    dailyBucketUptime svc log now i =
      calculate_service_uptime_for_period svc
        (sliceEvents log (floorDay now - ((i:ℚ)+1) * 86400)
          (floorDay now - (i:ℚ) * 86400))
        (floorDay now - ((i:ℚ)+1) * 86400)
        (floorDay now - (i:ℚ) * 86400) := by
  unfold dailyBucketUptime
  dsimp only
  have hcast : ((i:ℚ) + 1) = (((i+1 : ℕ)):ℚ) := by push_cast; ring
  have hs : floorDay (now - ((i:ℚ)+1) * 86400) =
      floorDay now - ((i:ℚ)+1) * 86400 := by
    rw [hcast, floorDay_sub_nat]
  rw [hs]
  have he : floorDay now - ((i:ℚ)+1) * 86400 + 86400 =
      floorDay now - (i:ℚ) * 86400 := by ring
  rw [he]

/-- Chronological position `29 - i` of the daily series is bucket `i`
(0-indexed from most recent), covering
`[floorDay(now) - (i+1) days, floorDay(now) - i days]`. -/
theorem dailyDataPoints_getElem (svc : Service) (log : List StatusHistoryEntry)
    (now : ℚ) (i : ℕ) (hi : i < 30) :
    (dailyDataPoints svc log now)[29 - i]? =
      some { timestamp := floorDay now - ((i:ℚ) + 1) * 86400,
             uptime_percentage := pythonRound2
               (calculate_service_uptime_for_period svc
                 (sliceEvents log (floorDay now - ((i:ℚ)+1) * 86400)
                   (floorDay now - (i:ℚ) * 86400))
                 (floorDay now - ((i:ℚ)+1) * 86400)
                 (floorDay now - (i:ℚ) * 86400)) } := by
  unfold dailyDataPoints
  have hlen : (((List.range 30).map (fun (i : ℕ) =>
      ({ timestamp := floorDay (now - ((i : ℚ) + 1) * 86400)
         uptime_percentage := pythonRound2 (dailyBucketUptime svc log now i) } :
        UptimeDataPoint)))).length = 30 := by simp
  rw [List.getElem?_reverse (by rw [hlen]; omega)]
  rw [hlen]
  have hidx : 30 - 1 - (29 - i) = i := by omega
  rw [hidx, List.getElem?_map, List.getElem?_range hi]
  have hcast : ((i:ℚ) + 1) = (((i+1 : ℕ)):ℚ) := by push_cast; ring
  have hs : floorDay (now - ((i:ℚ)+1) * 86400) =
      floorDay now - ((i:ℚ)+1) * 86400 := by
    rw [hcast, floorDay_sub_nat]
  rw [Option.map_some']
  rw [dailyBucketUptime_eq, hs]

/-- The daily series' timestamps are strictly increasing. -/
theorem dailyDataPoints_timestamps_increasing (svc : Service)
    (log : List StatusHistoryEntry) (now : ℚ) :
    List.Chain' (fun a b : ℚ => a < b)
      ((dailyDataPoints svc log now).map (fun p => p.timestamp)) := by
  unfold dailyDataPoints
  rw [List.map_reverse, List.chain'_reverse, List.map_map, List.chain'_map]
  have h30 : (30 : ℕ) = 29 + 1 := by norm_num
  rw [h30, List.chain'_range_succ]
  intro m _
  show floorDay (now - ((m.succ:ℚ) + 1) * 86400) <
      floorDay (now - ((m:ℚ) + 1) * 86400)
  have hc1 : ((m.succ:ℚ) + 1) = (((m+2 : ℕ)):ℚ) := by push_cast; ring
  have hc2 : ((m:ℚ) + 1) = (((m+1 : ℕ)):ℚ) := by push_cast; ring
  rw [hc1, hc2, floorDay_sub_nat, floorDay_sub_nat]
  push_cast
  linarith

/-- The reported daily overall sits within 0.01 of the mean of the 30
rounded bucket percentages. -/
theorem dailyOverall_near_mean (svc : Service) (log : List StatusHistoryEntry)
    (now : ℚ) :
    |dailyOverall svc log now -
      ((dailyDataPoints svc log now).map
        (fun p => p.uptime_percentage)).sum / 30| ≤ 1/100 := by
  have hmean : ((dailyDataPoints svc log now).map
      (fun p => p.uptime_percentage)).sum =
      (((List.range 30).map (dailyBucketUptime svc log now)).map
        pythonRound2).sum := by
    unfold dailyDataPoints
    rw [List.map_reverse, List.sum_reverse, List.map_map, List.map_map]
    rfl
  rw [hmean]
  have hov : dailyOverall svc log now =
      pythonRound2 ((((List.range 30).map
        (dailyBucketUptime svc log now))).sum / 30) := rfl
  rw [hov]
  set l := (List.range 30).map (dailyBucketUptime svc log now) with hl
  have hlen : l.length = 30 := by rw [hl]; simp
  have h1 : |pythonRound2 (l.sum / 30) - l.sum / 30| ≤ 1/200 :=
    abs_pythonRound2_sub_le _
  have h2 : |(l.map pythonRound2).sum - l.sum| ≤ 30 * (1/200) := by
    have h := abs_sum_round2_sub_le l
    rw [hlen] at h
    push_cast at h
    linarith
  have h3 : |(l.map pythonRound2).sum / 30 - l.sum / 30| ≤ 1/200 := by
    rw [div_sub_div_same, abs_div]
    have h30 : |(30:ℚ)| = 30 := by norm_num
    rw [h30]
    rw [div_le_iff₀ (by norm_num : (0:ℚ) < 30)]
    linarith
  have htri := abs_sub_le (pythonRound2 (l.sum / 30)) (l.sum / 30)
    ((l.map pythonRound2).sum / 30)
  have h4 : |l.sum / 30 - (l.map pythonRound2).sum / 30| ≤ 1/200 := by
    rw [abs_sub_comm]
    exact h3
  linarith

/-- C5: for every service, log and `now`, the daily series has exactly 30
entries in strictly increasing chronological timestamp order; the entry
`29 - i` (bucket `i`, 0-indexed from most recent) is timestamped
`floorDay(now) - (i+1)` days and carries the rounded Reconstructor value
of the window up to `floorDay(now) - i` days; and the reported overall is
within 0.01 of the mean of the 30 entries' percentages. -/
theorem claim_C5_daily_bucketing (svc : Service)
    (log : List StatusHistoryEntry) (now : ℚ) :
    (dailyDataPoints svc log now).length = 30 ∧
    List.Chain' (fun a b : ℚ => a < b)
      ((dailyDataPoints svc log now).map (fun p => p.timestamp)) ∧
    (∀ i : ℕ, i < 30 →
      (dailyDataPoints svc log now)[29 - i]? =
        some { timestamp := floorDay now - ((i:ℚ) + 1) * 86400,
               uptime_percentage := pythonRound2
                 (calculate_service_uptime_for_period svc
                   (sliceEvents log (floorDay now - ((i:ℚ)+1) * 86400)
                     (floorDay now - (i:ℚ) * 86400))
                   (floorDay now - ((i:ℚ)+1) * 86400)
                   (floorDay now - (i:ℚ) * 86400)) }) ∧
    |dailyOverall svc log now -
      ((dailyDataPoints svc log now).map
        (fun p => p.uptime_percentage)).sum / 30| ≤ 1/100 :=
  ⟨by unfold dailyDataPoints; simp,
   dailyDataPoints_timestamps_increasing svc log now,
   fun i hi => dailyDataPoints_getElem svc log now i hi,
   dailyOverall_near_mean svc log now⟩

/-- C5 witness: at `now = 0` with no events, the daily series of svcEx1
has 30 entries and its most recent bucket starts at `-86400` with 100%
uptime. -/
theorem claim_C5_witness :
    (dailyDataPoints svcEx1 [] 0).length = 30 ∧
    (dailyDataPoints svcEx1 [] 0)[29]? =
      some { timestamp := -86400, uptime_percentage := 100 } := by
  refine ⟨(claim_C5_daily_bucketing svcEx1 [] 0).1, ?_⟩
  have h := (claim_C5_daily_bucketing svcEx1 [] 0).2.2.1 0 (by norm_num)
  refine h.trans ?_
  have hfd : floorDay (0:ℚ) = 0 := by
    unfold floorDay
    norm_num
  rw [hfd]
  push_cast
  have hrec : calculate_service_uptime_for_period svcEx1
      (sliceEvents [] ((0:ℚ) - ((0:ℚ)+1) * 86400) (0 - (0:ℚ) * 86400))
      (0 - ((0:ℚ)+1) * 86400) (0 - (0:ℚ) * 86400) = 100 := by
    simp [calculate_service_uptime_for_period, sliceEvents, svcEx1]
    norm_num
  rw [hrec]
  have hr100 : pythonRound2 100 = 100 := by
    unfold pythonRound2 halfEvenRound
    norm_num
  rw [hr100]
  norm_num
